import Mathlib

/-!
Shallow embedding of `libs/langchain/langchain/chains/combine_documents/map_reduce.py`.

The module wires a map step (apply a model-invocation chain to each document),
an optional collapse step, and a reduce step into a single pipeline, both in
LCEL style (`create_map_documents_chain`, `create_map_reduce_documents_chain`)
and as the legacy `MapReduceDocumentsChain` class.

Modelling decisions:
* Python dicts of string inputs are association lists `List (String × String)`;
  a later binding overrides an earlier one (`dictGet` returns the rightmost
  match), matching Python dict-literal update semantics such as
  `\x7bname: body, **kwargs\x7d`.
* The auxiliary output dictionary of a combine operation can hold a string or
  a list of strings (for the intermediate-steps entry), so its values live in
  an explicit `Value` type.
* External collaborators (the language model, the prompt template, the reduce
  chain's token-aware collapsing defined in `reduce.py`, which is not part of
  the sources) are abstracted as function fields: the per-record invocation of
  an `LLMChain` is an arbitrary function on input records, and the behavior of
  a combine-documents chain is an arbitrary `ChainBehavior`.
* Python indexing `r[key]` raises `KeyError` when the key is absent; the
  collaborator contract (a model result always contains the designated output
  field) is modelled by total lookup with default `""`; no claim depends on
  the absent-key case.
-/

/-- Record of named string inputs, as passed to a model-invocation object.
A later entry overrides an earlier one, as in a Python dict built by update. -/
abbrev InputRecord := List (String × String)

/-- Value stored in an auxiliary output dictionary: either plain text or an
ordered list of strings (the intermediate-steps entry). -/
inductive Value where
  | str (s : String)
  | strList (l : List String)
  deriving DecidableEq, Repr

/-- Auxiliary output dictionary returned beside the main result of a combine
operation. -/
abbrev ExtraDict := List (String × Value)

/-- Rightmost-wins lookup: the binding added last (the rightmost one) is the
one a Python dict would hold after the corresponding sequence of updates. -/
def dictGet {α : Type} : List (String × α) → String → Option α
  | [], _ => none
  | (k, v) :: rest, key =>
    match dictGet rest key with
    | some w => some w
    | none => if k = key then some v else none

/-- Document: a text body plus a metadata mapping.  Mirrors
`langchain_core.documents.Document` as used by this module (only
`page_content` and `metadata` are touched). -/
structure Document where
  page_content : String
  metadata : List (String × String)
  deriving DecidableEq, Repr

/-- Prompt template, reduced to the single feature this module reads from it:
its declared input variables (`prompt.input_variables`). -/
structure Prompt where
  input_variables : List String
  deriving DecidableEq, Repr

/-- Model-invocation chain (`LLMChain`): a prompt, a designated output key,
and the single-record invocation in its synchronous (`run`) and asynchronous
(`arun`) forms.  The invocation itself is an external collaborator and is
therefore an arbitrary function. -/
structure LLMChain where
  prompt : Prompt
  output_key : String
  run : InputRecord → InputRecord
  arun : InputRecord → InputRecord

/-- Batch form `LLMChain.apply`: one invocation per input record, results
positionally aligned with inputs. -/
def LLMChain.apply (c : LLMChain) (inputs : List InputRecord) : List InputRecord :=
  inputs.map c.run

/-- Asynchronous batch form `LLMChain.aapply`. -/
def LLMChain.aapply (c : LLMChain) (inputs : List InputRecord) : List InputRecord :=
  inputs.map c.arun

/-- Combine operation of a combine-documents chain: documents, an optional
token ceiling and pass-through fields in, final text plus auxiliary
dictionary out; with a synchronous and an asynchronous form.  The concrete
behavior (e.g. the recursive collapsing of `ReduceDocumentsChain` in
`reduce.py`) is external to this module. -/
structure ChainBehavior where
  combineFn : List Document → Option Nat → InputRecord → String × ExtraDict
  acombineFn : List Document → Option Nat → InputRecord → String × ExtraDict

/-- A `BaseCombineDocumentsChain` collaborator, as far as this module inspects
it: either a `ReduceDocumentsChain` (carrying its nested combine sub-chain and
optional collapse sub-chain) or some other chain class, tagged with its class
name for the error message of the back-compatibility accessors. -/
inductive BaseCombineDocumentsChain where
  | reduceDocumentsChain (combine_documents_chain : BaseCombineDocumentsChain)
      (collapse_documents_chain : Option BaseCombineDocumentsChain)
      (behavior : ChainBehavior)
  | otherChain (className : String) (behavior : ChainBehavior)

/-- Behavior of a combine-documents chain, independent of its shape. -/
def BaseCombineDocumentsChain.behavior : BaseCombineDocumentsChain → ChainBehavior
  | .reduceDocumentsChain _ _ b => b
  | .otherChain _ b => b

/-- Class name, as `type(...)` would render it in the accessor error text. -/
def BaseCombineDocumentsChain.type_name : BaseCombineDocumentsChain → String
  | .reduceDocumentsChain _ _ _ => "ReduceDocumentsChain"
  | .otherChain n _ => n

/-- Synchronous combine operation of a collaborator chain. -/
def BaseCombineDocumentsChain.combine_docs (c : BaseCombineDocumentsChain)
    (docs : List Document) (token_max : Option Nat) (kwargs : InputRecord) :
    String × ExtraDict :=
  c.behavior.combineFn docs token_max kwargs

/-- Asynchronous combine operation of a collaborator chain. -/
def BaseCombineDocumentsChain.acombine_docs (c : BaseCombineDocumentsChain)
    (docs : List Document) (token_max : Option Nat) (kwargs : InputRecord) :
    String × ExtraDict :=
  c.behavior.acombineFn docs token_max kwargs

/-! LCEL Runnable chains (`create_map_documents_chain`,
`create_map_reduce_documents_chain`) and their helpers. -/

/-- Working record flowing through the LCEL chains: the list of documents
under the `"context"` key (`DOCUMENTS_KEY`, defined in
`combine_documents/base.py`) together with the caller's other fields. -/
structure MapReduceInput where
  context : List Document
  extra : InputRecord
  deriving DecidableEq, Repr

/-- Per-document input record produced by the fan-out of the map chain: the
source document under the `"context"` key plus the caller's other fields. -/
structure DocumentInput where
  context : Document
  extra : InputRecord
  deriving DecidableEq, Repr

/-- Per-document record after `RunnablePassthrough.assign(page_content=...)`:
the same fields with the model's text output assigned to `page_content`. -/
structure DocumentInputWithContent where
  context : Document
  extra : InputRecord
  page_content : String
  deriving DecidableEq, Repr

/-- Modelled from the spec: `format_document_inputs_as_list` lives in
`combine_documents/base.py`, which is not among the sources.  Per the spec's
map-stage contract it fans the working record out into one record per
document, in input order, each carrying that document and the caller's other
fields. -/
def format_document_inputs_as_list (input : MapReduceInput) : List DocumentInput :=
  input.context.map (fun d => { context := d, extra := input.extra })

/-- Step `assign_page_content` of `create_map_documents_chain`: run the
`map_content` pipeline (document formatter | prompt | llm | string parser,
all external collaborators, abstracted as one function) and assign its output
to the `page_content` field of the record. -/
def assign_page_content (map_content : DocumentInput → String)
    (input : DocumentInput) : DocumentInputWithContent :=
  { context := input.context, extra := input.extra, page_content := map_content input }

/-- Helper `_compile_document`: rebuild a `Document` from the record, taking
the body from the assigned `page_content` and the metadata from the source
document stored under the `"context"` key. -/
def _compile_document (inputs : DocumentInputWithContent) : Document :=
  { page_content := inputs.page_content, metadata := inputs.context.metadata }

/-- Chain built by `create_map_documents_chain`: fan out to per-document
records, then map `assign_page_content | _compile_document` over them. -/
def create_map_documents_chain (map_content : DocumentInput → String)
    (input : MapReduceInput) : List Document :=
  (format_document_inputs_as_list input).map
    (fun d => _compile_document (assign_page_content map_content d))

/-- Chain built by `create_map_reduce_documents_chain`: assign the map
chain's output to the `"context"` field; if a collapse chain is supplied,
assign its output to the same field next; finally run the reduce chain on the
full record and return its result. -/
def create_map_reduce_documents_chain {α : Type}
    (map_documents_chain : MapReduceInput → List Document)
    (reduce_documents_chain : MapReduceInput → α)
    (collapse_documents_chain : Option (MapReduceInput → List Document)) :
    MapReduceInput → α :=
  let assign_mapped_docs : MapReduceInput → MapReduceInput :=
    fun input => { input with context := map_documents_chain input }
  match collapse_documents_chain with
  | none => fun input => reduce_documents_chain (assign_mapped_docs input)
  | some collapse =>
    let assign_collapsed_docs : MapReduceInput → MapReduceInput :=
      fun input => { input with context := collapse input }
    fun input => reduce_documents_chain (assign_collapsed_docs (assign_mapped_docs input))

/-! Legacy `MapReduceDocumentsChain` class. -/

/-- The constructed (validated) `MapReduceDocumentsChain`. -/
structure MapReduceDocumentsChain where
  llm_chain : LLMChain
  reduce_documents_chain : BaseCombineDocumentsChain
  document_variable_name : String
  return_intermediate_steps : Bool

/-- Raw keyword arguments of `MapReduceDocumentsChain(...)` before the
`pre=True` root validators run; `none` models an absent key. -/
structure RawConfig where
  llm_chain : Option LLMChain
  reduce_documents_chain : Option BaseCombineDocumentsChain
  combine_document_chain : Option BaseCombineDocumentsChain
  collapse_document_chain : Option BaseCombineDocumentsChain
  document_variable_name : Option String
  return_intermediate_steps : Option Bool
  return_map_steps : Option Bool

/-- Error text of `get_reduce_chain` when both fields are supplied. -/
def bothChainsMsg : String :=
  "Both `reduce_documents_chain` and `combine_document_chain` cannot be provided at the same time. `combine_document_chain` is deprecated, please only provide `reduce_documents_chain`"

/-- Root validator `get_reduce_chain`: reject the legacy
`combine_document_chain` together with `reduce_documents_chain`; otherwise
wrap the legacy field (and the optional legacy `collapse_document_chain`)
into a `ReduceDocumentsChain` and delete the legacy keys.  The constructed
`ReduceDocumentsChain`'s runtime behavior is defined in `reduce.py`, which is
not among the sources, so it is taken as the parameter `rb`. -/
def get_reduce_chain (rb : ChainBehavior) (values : RawConfig) :
    Except String RawConfig :=
  match values.combine_document_chain with
  | none => .ok values
  | some combine_chain =>
    match values.reduce_documents_chain with
    | some _ => .error bothChainsMsg
    | none =>
      .ok { values with
        reduce_documents_chain :=
          some (.reduceDocumentsChain combine_chain values.collapse_document_chain rb),
        combine_document_chain := none,
        collapse_document_chain := none }

/-- Root validator `get_return_intermediate_steps`: rename the legacy
`return_map_steps` key to `return_intermediate_steps`.  It never raises. -/
def get_return_intermediate_steps (values : RawConfig) : RawConfig :=
  match values.return_map_steps with
  | none => values
  | some b =>
    { values with return_intermediate_steps := some b, return_map_steps := none }

/-- Quote character used by Python `repr` of a string list. -/
def pyQuote : String := String.singleton (Char.ofNat 39)

/-- Python `repr` rendering of the `input_variables` list, as interpolated
into the `get_default_document_variable_name` error text. -/
def reprVars (vars : List String) : String :=
  "[" ++ String.intercalate ", " (vars.map (fun v => pyQuote ++ v ++ pyQuote)) ++ "]"

/-- Error text when no name is supplied and the prompt does not have exactly
one input variable. -/
def ambiguousVariableMsg : String :=
  "document_variable_name must be provided if there are multiple llm_chain input_variables"

/-- Error text when the supplied name is not among the prompt's input
variables; it names the offending value and the full legal set. -/
def variableNotFoundMsg (name : String) (vars : List String) : String :=
  "document_variable_name " ++ name ++ " was not found in llm_chain input_variables: " ++ reprVars vars

/-- Root validator `get_default_document_variable_name`: derive the name from
the prompt's single input variable, or validate a supplied name against the
prompt's input variables.  Python would raise `KeyError` on a missing
`llm_chain` key; that is the first error case. -/
def get_default_document_variable_name (values : RawConfig) :
    Except String RawConfig :=
  match values.llm_chain with
  | none => .error "KeyError: llm_chain"
  | some lc =>
    match values.document_variable_name with
    | none =>
      match lc.prompt.input_variables with
      | [v] => .ok { values with document_variable_name := some v }
      | _ => .error ambiguousVariableMsg
    | some name =>
      if name ∈ lc.prompt.input_variables then .ok values
      else .error (variableNotFoundMsg name lc.prompt.input_variables)

/-- Pydantic field assembly after the `pre=True` root validators: required
fields must be present and, because the model declares `extra = Extra.forbid`,
any key that is not a declared field (the legacy keys, when still present)
rejects the configuration. -/
def assemble_fields (values : RawConfig) : Except String MapReduceDocumentsChain :=
  if values.combine_document_chain.isSome ∨ values.collapse_document_chain.isSome ∨
      values.return_map_steps.isSome then
    .error "extra fields not permitted"
  else
    match values.llm_chain, values.reduce_documents_chain, values.document_variable_name with
    | some lc, some rc, some dvn =>
      .ok { llm_chain := lc, reduce_documents_chain := rc,
            document_variable_name := dvn,
            return_intermediate_steps := values.return_intermediate_steps.getD false }
    | _, _, _ => .error "field required"

/-- Construction of a `MapReduceDocumentsChain`: the three `pre=True` root
validators run in declaration order on the raw keyword arguments, then the
declared fields are assembled.  `rb` is the behavior `reduce.py` gives a
`ReduceDocumentsChain` built by `get_reduce_chain` (see there). -/
def MapReduceDocumentsChain.construct (rb : ChainBehavior) (values : RawConfig) :
    Except String MapReduceDocumentsChain :=
  match get_reduce_chain rb values with
  | .error e => .error e
  | .ok v1 =>
    match get_default_document_variable_name (get_return_intermediate_steps v1) with
    | .error e => .error e
    | .ok v3 => assemble_fields v3

/-- Error text of the back-compatibility accessors when
`reduce_documents_chain` is not a `ReduceDocumentsChain`. -/
def notReduceChainMsg (c : BaseCombineDocumentsChain) : String :=
  "`reduce_documents_chain` is of type " ++ c.type_name ++ " so it does not have this attribute."

/-- Back-compatibility accessor `collapse_document_chain`: inside a
`ReduceDocumentsChain`, the collapse sub-chain when set, else the combine
sub-chain; on any other chain kind, an error. -/
def MapReduceDocumentsChain.collapse_document_chain (c : MapReduceDocumentsChain) :
    Except String BaseCombineDocumentsChain :=
  match c.reduce_documents_chain with
  | .reduceDocumentsChain combine collapse _ =>
    match collapse with
    | some cc => .ok cc
    | none => .ok combine
  | .otherChain n b => .error (notReduceChainMsg (.otherChain n b))

/-- Back-compatibility accessor `combine_document_chain`: the combine
sub-chain of a `ReduceDocumentsChain`; on any other chain kind, an error. -/
def MapReduceDocumentsChain.combine_document_chain (c : MapReduceDocumentsChain) :
    Except String BaseCombineDocumentsChain :=
  match c.reduce_documents_chain with
  | .reduceDocumentsChain combine _ _ => .ok combine
  | .otherChain n b => .error (notReduceChainMsg (.otherChain n b))

/-! The combine operation of `MapReduceDocumentsChain`, split into the named
intermediates of the source body so theorems can speak about them. -/

/-- Per-document input records of `combine_docs`:
`\x7bself.document_variable_name: d.page_content, **kwargs\x7d` for each `d`
in `docs` — the body binding first, then the caller's fields, which override
it on key collision. -/
def MapReduceDocumentsChain.map_inputs (c : MapReduceDocumentsChain)
    (docs : List Document) (kwargs : InputRecord) : List InputRecord :=
  docs.map (fun d => (c.document_variable_name, d.page_content) :: kwargs)

/-- The `map_results` of `combine_docs`: the batch invocation of `llm_chain`
over the per-document input records. -/
def MapReduceDocumentsChain.map_results (c : MapReduceDocumentsChain)
    (docs : List Document) (kwargs : InputRecord) : List InputRecord :=
  c.llm_chain.apply (c.map_inputs docs kwargs)

/-- Extraction `r[self.llm_chain.output_key]` of a model result's text. -/
def MapReduceDocumentsChain.result_text (c : MapReduceDocumentsChain)
    (r : InputRecord) : String :=
  (dictGet r c.llm_chain.output_key).getD ""

/-- The `result_docs` of `combine_docs`: text from the i-th map result,
metadata from the i-th input document. -/
def MapReduceDocumentsChain.result_docs (c : MapReduceDocumentsChain)
    (docs : List Document) (kwargs : InputRecord) : List Document :=
  ((c.map_results docs kwargs).zip docs).map
    (fun p => { page_content := c.result_text p.1, metadata := p.2.metadata })

/-- Synchronous `MapReduceDocumentsChain.combine_docs`: map `llm_chain` over
the documents, rebuild documents, delegate to the reduce chain, and append
the intermediate steps to the auxiliary dictionary when the flag is set. -/
def MapReduceDocumentsChain.combine_docs (c : MapReduceDocumentsChain)
    (docs : List Document) (token_max : Option Nat) (kwargs : InputRecord) :
    String × ExtraDict :=
  let map_results := c.map_results docs kwargs
  let rr := c.reduce_documents_chain.combine_docs (c.result_docs docs kwargs) token_max kwargs
  if c.return_intermediate_steps then
    (rr.1, rr.2 ++ [("intermediate_steps", Value.strList (map_results.map c.result_text))])
  else rr

/-- Per-document input records of `acombine_docs`:
`\x7b**\x7bself.document_variable_name: d.page_content\x7d, **kwargs\x7d` —
the inner one-entry dict spliced first, then the caller's fields. -/
def MapReduceDocumentsChain.amap_inputs (c : MapReduceDocumentsChain)
    (docs : List Document) (kwargs : InputRecord) : List InputRecord :=
  docs.map (fun d => [(c.document_variable_name, d.page_content)] ++ kwargs)

/-- The `map_results` of `acombine_docs`: the asynchronous batch invocation
of `llm_chain` over the per-document input records. -/
def MapReduceDocumentsChain.amap_results (c : MapReduceDocumentsChain)
    (docs : List Document) (kwargs : InputRecord) : List InputRecord :=
  c.llm_chain.aapply (c.amap_inputs docs kwargs)

/-- The `result_docs` of `acombine_docs`. -/
def MapReduceDocumentsChain.aresult_docs (c : MapReduceDocumentsChain)
    (docs : List Document) (kwargs : InputRecord) : List Document :=
  ((c.amap_results docs kwargs).zip docs).map
    (fun p => { page_content := c.result_text p.1, metadata := p.2.metadata })

/-- Asynchronous `MapReduceDocumentsChain.acombine_docs`; suspension points
(awaits) are modelled as plain calls of the asynchronous collaborator forms. -/
def MapReduceDocumentsChain.acombine_docs (c : MapReduceDocumentsChain)
    (docs : List Document) (token_max : Option Nat) (kwargs : InputRecord) :
    String × ExtraDict :=
  let map_results := c.amap_results docs kwargs
  let rr := c.reduce_documents_chain.acombine_docs (c.aresult_docs docs kwargs) token_max kwargs
  if c.return_intermediate_steps then
    (rr.1, rr.2 ++ [("intermediate_steps", Value.strList (map_results.map c.result_text))])
  else rr

/-! Helper lemmas. -/

theorem dictGet_append_single {α : Type} (l : List (String × α)) (k : String) (v : α) :
    dictGet (l ++ [(k, v)]) k = some v := by
  induction l with
  | nil => simp [dictGet]
  | cons p rest ih =>
    obtain ⟨k0, v0⟩ := p
    simp [dictGet, ih]

theorem dictGet_cons_of_some {α : Type} (rest : List (String × α)) (k0 key : String)
    (v0 v : α) (h : dictGet rest key = some v) :
    dictGet ((k0, v0) :: rest) key = some v := by
  simp [dictGet, h]

theorem zip_map_self {A B : Type} (f : A → B) (l : List A) :
    (l.map f).zip l = l.map (fun a => (f a, a)) := by
  induction l with
  | nil => rfl
  | cons a rest ih => simp [ih]

theorem getElem?_map_point {A B : Type} (l : List A) (g : A → B) (i : Nat)
    (hi : i < l.length) :
    ∃ a, l[i]? = some a ∧ (l.map g)[i]? = some (g a) := by
  refine ⟨l.get ⟨i, hi⟩, ?_, ?_⟩
  · simp [List.getElem?_eq_getElem hi]
  · simp [List.getElem?_eq_getElem, hi]

/-! Claim theorems. -/

/-- C2: the composition built by `create_map_reduce_documents_chain` assigns
the map chain's output to the `"context"` field of the working record; a
supplied collapse chain is then applied to the same field of that updated
record, strictly between map and reduce; the full working record (other
fields untouched) then goes to the reduce chain, whose result is returned
unmodified, and with no collapse chain the composition is exactly map
followed by reduce. -/
theorem create_map_reduce_composition_order {α : Type}
    (map_documents_chain : MapReduceInput → List Document)
    (reduce_documents_chain : MapReduceInput → α)
    (input : MapReduceInput) :
    (create_map_reduce_documents_chain map_documents_chain reduce_documents_chain none input
      = reduce_documents_chain
          { context := map_documents_chain input, extra := input.extra }) ∧
    (∀ collapse : MapReduceInput → List Document,
      create_map_reduce_documents_chain map_documents_chain reduce_documents_chain
          (some collapse) input
        = reduce_documents_chain
            { context := collapse
                { context := map_documents_chain input, extra := input.extra },
              extra := input.extra }) :=
  ⟨rfl, fun _ => rfl⟩

/-- C8: the composition with no collapse chain equals the composition with an
identity collapse chain (one returning the `"context"` field unchanged), on
every input record. -/
theorem create_map_reduce_no_collapse_equiv_identity {α : Type}
    (map_documents_chain : MapReduceInput → List Document)
    (reduce_documents_chain : MapReduceInput → α)
    (input : MapReduceInput) :
    create_map_reduce_documents_chain map_documents_chain reduce_documents_chain none input
      = create_map_reduce_documents_chain map_documents_chain reduce_documents_chain
          (some (fun r => r.context)) input :=
  rfl

/-- C7: both back-compatibility accessors fail with the type-mismatch error
when `reduce_documents_chain` is not a `ReduceDocumentsChain`, succeed when
it is one, and read only the `reduce_documents_chain` field (in particular
they mutate nothing: two chains agreeing on that field get identical
accessor results). -/
theorem accessor_type_mismatch (c : MapReduceDocumentsChain) :
    (∀ n b, c.reduce_documents_chain = .otherChain n b →
      c.collapse_document_chain = .error (notReduceChainMsg (.otherChain n b)) ∧
      c.combine_document_chain = .error (notReduceChainMsg (.otherChain n b))) ∧
    (∀ combine collapse b,
      c.reduce_documents_chain = .reduceDocumentsChain combine collapse b →
      (∃ x, c.collapse_document_chain = .ok x) ∧
      c.combine_document_chain = .ok combine) ∧
    (∀ c2 : MapReduceDocumentsChain,
      c2.reduce_documents_chain = c.reduce_documents_chain →
      c2.collapse_document_chain = c.collapse_document_chain ∧
      c2.combine_document_chain = c.combine_document_chain) := by
  refine ⟨?_, ?_, ?_⟩
  · intro n b h
    constructor <;>
      simp [MapReduceDocumentsChain.collapse_document_chain,
        MapReduceDocumentsChain.combine_document_chain, h]
  · intro combine collapse b h
    cases collapse <;>
      simp [MapReduceDocumentsChain.collapse_document_chain,
        MapReduceDocumentsChain.combine_document_chain, h]
  · intro c2 h
    constructor <;>
      simp [MapReduceDocumentsChain.collapse_document_chain,
        MapReduceDocumentsChain.combine_document_chain, h]

/-- C9: when `reduce_documents_chain` is a `ReduceDocumentsChain` with no
collapse sub-chain set, the `collapse_document_chain` accessor does not fail
but falls back to the combine sub-chain. -/
theorem collapse_accessor_fallback (c : MapReduceDocumentsChain)
    (combine : BaseCombineDocumentsChain) (b : ChainBehavior)
    (h : c.reduce_documents_chain = .reduceDocumentsChain combine none b) :
    c.collapse_document_chain = .ok combine := by
  simp [MapReduceDocumentsChain.collapse_document_chain, h]

/-- C10: in the per-document input records of both `combine_docs` and
`acombine_docs`, caller-supplied extra fields are merged after the document
body, so a caller field keyed by `document_variable_name` replaces the
document's body in the record sent to the model-invocation object. -/
theorem kwargs_override_document_body (c : MapReduceDocumentsChain)
    (docs : List Document) (kwargs : InputRecord) (i : Nat) (d : Document)
    (v : String) (hd : docs[i]? = some d)
    (hk : dictGet kwargs c.document_variable_name = some v) :
    (∃ r, (c.map_inputs docs kwargs)[i]? = some r ∧
      dictGet r c.document_variable_name = some v) ∧
    (∃ r, (c.amap_inputs docs kwargs)[i]? = some r ∧
      dictGet r c.document_variable_name = some v) := by
  constructor
  · refine ⟨(c.document_variable_name, d.page_content) :: kwargs, ?_, ?_⟩
    · simp [MapReduceDocumentsChain.map_inputs, hd]
    · exact dictGet_cons_of_some kwargs _ _ _ _ hk
  · refine ⟨(c.document_variable_name, d.page_content) :: kwargs, ?_, ?_⟩
    · simp [MapReduceDocumentsChain.amap_inputs, hd]
    · exact dictGet_cons_of_some kwargs _ _ _ _ hk

theorem map_results_eq (c : MapReduceDocumentsChain) (docs : List Document)
    (kwargs : InputRecord) :
    c.map_results docs kwargs = docs.map
      (fun d => c.llm_chain.run ((c.document_variable_name, d.page_content) :: kwargs)) := by
  simp [MapReduceDocumentsChain.map_results, MapReduceDocumentsChain.map_inputs,
    LLMChain.apply, List.map_map, Function.comp]

theorem result_docs_eq (c : MapReduceDocumentsChain) (docs : List Document)
    (kwargs : InputRecord) :
    c.result_docs docs kwargs = docs.map
      (fun d => { page_content := c.result_text (c.llm_chain.run
                    ((c.document_variable_name, d.page_content) :: kwargs)),
                  metadata := d.metadata }) := by
  rw [MapReduceDocumentsChain.result_docs, map_results_eq, zip_map_self,
    List.map_map]
  rfl

theorem create_map_documents_chain_eq (map_content : DocumentInput → String)
    (input : MapReduceInput) :
    create_map_documents_chain map_content input = input.context.map
      (fun d => { page_content := map_content { context := d, extra := input.extra },
                  metadata := d.metadata }) := by
  simp [create_map_documents_chain, format_document_inputs_as_list,
    assign_page_content, _compile_document, List.map_map, Function.comp]

/-- C1: both map steps — the chain built by `create_map_documents_chain` and
the map phase of `MapReduceDocumentsChain.combine_docs` — return one document
per input document; the i-th output document carries exactly the i-th input
document's metadata and its body is the model's output for that document. -/
theorem map_step_preserves_metadata (map_content : DocumentInput → String)
    (input : MapReduceInput) (c : MapReduceDocumentsChain)
    (docs : List Document) (kwargs : InputRecord) :
    ((create_map_documents_chain map_content input).length = input.context.length ∧
     ∀ i, i < input.context.length →
       ∃ d, input.context[i]? = some d ∧
         (create_map_documents_chain map_content input)[i]? =
           some { page_content := map_content { context := d, extra := input.extra },
                  metadata := d.metadata }) ∧
    ((c.result_docs docs kwargs).length = docs.length ∧
     ∀ i, i < docs.length →
       ∃ d, docs[i]? = some d ∧
         (c.result_docs docs kwargs)[i]? =
           some { page_content := c.result_text (c.llm_chain.run
                    ((c.document_variable_name, d.page_content) :: kwargs)),
                  metadata := d.metadata }) := by
  constructor
  · rw [create_map_documents_chain_eq]
    exact ⟨List.length_map _ _, fun i hi => getElem?_map_point input.context _ i hi⟩
  · rw [result_docs_eq]
    exact ⟨List.length_map _ _, fun i hi => getElem?_map_point docs _ i hi⟩

theorem intermediate_list_eq (c : MapReduceDocumentsChain) (docs : List Document)
    (kwargs : InputRecord) :
    (c.map_results docs kwargs).map c.result_text = docs.map
      (fun d => c.result_text (c.llm_chain.run
        ((c.document_variable_name, d.page_content) :: kwargs))) := by
  rw [map_results_eq, List.map_map]
  rfl

/-- C5: with the intermediate-steps flag set, the auxiliary dictionary of
`combine_docs` (and of `acombine_docs`) holds under `"intermediate_steps"`
the raw per-document outputs — the strings later used as the mapped bodies —
one per input document and in input order; with the flag unset the auxiliary
dictionary is exactly the reduce chain's, with no key added. -/
theorem intermediate_steps_output (c : MapReduceDocumentsChain)
    (docs : List Document) (token_max : Option Nat) (kwargs : InputRecord) :
    (c.return_intermediate_steps = true →
      dictGet (c.combine_docs docs token_max kwargs).2 "intermediate_steps" =
        some (Value.strList ((c.map_results docs kwargs).map c.result_text)) ∧
      dictGet (c.acombine_docs docs token_max kwargs).2 "intermediate_steps" =
        some (Value.strList ((c.amap_results docs kwargs).map c.result_text)) ∧
      ((c.map_results docs kwargs).map c.result_text).length = docs.length ∧
      (∀ i, i < docs.length →
        ∃ d, docs[i]? = some d ∧
          ((c.map_results docs kwargs).map c.result_text)[i]? =
            some (c.result_text (c.llm_chain.run
              ((c.document_variable_name, d.page_content) :: kwargs))))) ∧
    (c.return_intermediate_steps = false →
      (c.combine_docs docs token_max kwargs).2 =
        (c.reduce_documents_chain.combine_docs (c.result_docs docs kwargs)
          token_max kwargs).2 ∧
      (c.acombine_docs docs token_max kwargs).2 =
        (c.reduce_documents_chain.acombine_docs (c.aresult_docs docs kwargs)
          token_max kwargs).2) := by
  constructor
  · intro h
    refine ⟨?_, ?_, ?_, ?_⟩
    · simp only [MapReduceDocumentsChain.combine_docs, h, if_true]
      exact dictGet_append_single _ _ _
    · simp only [MapReduceDocumentsChain.acombine_docs, h, if_true]
      exact dictGet_append_single _ _ _
    · rw [intermediate_list_eq]
      exact List.length_map _ _
    · intro i hi
      rw [intermediate_list_eq]
      exact getElem?_map_point docs _ i hi
  · intro h
    constructor
    · simp [MapReduceDocumentsChain.combine_docs, h]
    · simp [MapReduceDocumentsChain.acombine_docs, h]

/-- C6: `combine_docs` and `acombine_docs` agree whenever the collaborators'
synchronous and asynchronous forms agree — same per-document input records,
same map results, same rebuilt document list, and the same final
(result, auxiliary-dictionary) pair. -/
theorem combine_docs_sync_async_agree (c : MapReduceDocumentsChain)
    (docs : List Document) (token_max : Option Nat) (kwargs : InputRecord)
    (hrun : ∀ r, c.llm_chain.arun r = c.llm_chain.run r)
    (hreduce : ∀ ds tm kw, c.reduce_documents_chain.acombine_docs ds tm kw =
      c.reduce_documents_chain.combine_docs ds tm kw) :
    c.amap_inputs docs kwargs = c.map_inputs docs kwargs ∧
    c.amap_results docs kwargs = c.map_results docs kwargs ∧
    c.aresult_docs docs kwargs = c.result_docs docs kwargs ∧
    c.acombine_docs docs token_max kwargs = c.combine_docs docs token_max kwargs := by
  have harun : c.llm_chain.arun = c.llm_chain.run := funext hrun
  have h1 : c.amap_inputs docs kwargs = c.map_inputs docs kwargs := by
    simp [MapReduceDocumentsChain.amap_inputs, MapReduceDocumentsChain.map_inputs]
  have h2 : c.amap_results docs kwargs = c.map_results docs kwargs := by
    rw [MapReduceDocumentsChain.amap_results, MapReduceDocumentsChain.map_results,
      LLMChain.aapply, LLMChain.apply, harun, h1]
  have h3 : c.aresult_docs docs kwargs = c.result_docs docs kwargs := by
    rw [MapReduceDocumentsChain.aresult_docs, MapReduceDocumentsChain.result_docs, h2]
  have h4 : c.acombine_docs docs token_max kwargs = c.combine_docs docs token_max kwargs := by
    rw [MapReduceDocumentsChain.acombine_docs, MapReduceDocumentsChain.combine_docs,
      h2, h3, hreduce]
  exact ⟨h1, h2, h3, h4⟩

theorem get_default_ok_mem (w w3 : RawConfig)
    (h : get_default_document_variable_name w = .ok w3) :
    ∀ lc dvn, w3.llm_chain = some lc → w3.document_variable_name = some dvn →
      dvn ∈ lc.prompt.input_variables := by
  intro lc dvn hlc hdvn
  obtain ⟨wl, wrd, wcd, wcc, wdvn, wri, wrm⟩ := w
  cases wl with
  | none => simp [get_default_document_variable_name] at h
  | some lc0 =>
    cases wdvn with
    | none =>
      cases hv : lc0.prompt.input_variables with
      | nil => simp [get_default_document_variable_name, hv] at h
      | cons x t =>
        cases t with
        | nil =>
          simp [get_default_document_variable_name, hv] at h
          subst h
          simp at hlc hdvn
          subst hlc
          subst hdvn
          simp [hv]
        | cons y t2 => simp [get_default_document_variable_name, hv] at h
    | some n =>
      by_cases hm : n ∈ lc0.prompt.input_variables
      · simp [get_default_document_variable_name, hm] at h
        subst h
        simp at hlc hdvn
        subst hlc
        subst hdvn
        exact hm
      · simp [get_default_document_variable_name, hm] at h

theorem assemble_fields_ok (w : RawConfig) (chain : MapReduceDocumentsChain)
    (h : assemble_fields w = .ok chain) :
    w.llm_chain = some chain.llm_chain ∧
    w.document_variable_name = some chain.document_variable_name := by
  unfold assemble_fields at h
  split at h
  · exact Except.noConfusion h
  · split at h
    · cases h
      simp_all
    · exact Except.noConfusion h

/-- C3: supplying both the legacy `combine_document_chain` and the new
`reduce_documents_chain` makes construction fail with the mutual-exclusion
validation error; supplying the legacy field alone (the other required fields
being valid) makes construction succeed with the legacy combine chain — and
the optional legacy `collapse_document_chain` — wrapped into a
`ReduceDocumentsChain` stored as `reduce_documents_chain`, the legacy keys
having been removed from the configuration (otherwise `Extra.forbid` would
reject them). -/
theorem legacy_combine_chain_migration (rb : ChainBehavior) (v : RawConfig)
    (cc : BaseCombineDocumentsChain) (hcc : v.combine_document_chain = some cc) :
    (v.reduce_documents_chain.isSome →
      MapReduceDocumentsChain.construct rb v = .error bothChainsMsg) ∧
    (v.reduce_documents_chain = none →
      ∀ lc dvn, v.llm_chain = some lc → v.document_variable_name = some dvn →
        dvn ∈ lc.prompt.input_variables →
        ∃ chain, MapReduceDocumentsChain.construct rb v = .ok chain ∧
          chain.reduce_documents_chain =
            .reduceDocumentsChain cc v.collapse_document_chain rb ∧
          chain.llm_chain = lc ∧ chain.document_variable_name = dvn) := by
  constructor
  · intro hrd
    obtain ⟨rc, hrc⟩ := Option.isSome_iff_exists.mp hrd
    simp [MapReduceDocumentsChain.construct, get_reduce_chain, hcc, hrc]
  · intro hred lc dvn hlc hdvn hmem
    cases hrm : v.return_map_steps with
    | none =>
      refine ⟨{ llm_chain := lc,
                reduce_documents_chain :=
                  .reduceDocumentsChain cc v.collapse_document_chain rb,
                document_variable_name := dvn,
                return_intermediate_steps := v.return_intermediate_steps.getD false },
              ?_, rfl, rfl, rfl⟩
      simp [MapReduceDocumentsChain.construct, get_reduce_chain, hcc, hred,
        get_return_intermediate_steps, get_default_document_variable_name,
        assemble_fields, hlc, hdvn, hmem, hrm]
    | some b =>
      refine ⟨{ llm_chain := lc,
                reduce_documents_chain :=
                  .reduceDocumentsChain cc v.collapse_document_chain rb,
                document_variable_name := dvn,
                return_intermediate_steps := b },
              ?_, rfl, rfl, rfl⟩
      simp [MapReduceDocumentsChain.construct, get_reduce_chain, hcc, hred,
        get_return_intermediate_steps, get_default_document_variable_name,
        assemble_fields, hlc, hdvn, hmem, hrm]

/-- C4: at construction time, a missing `document_variable_name` is derived
from the prompt's single input variable; with zero or several input variables
construction fails with the ambiguity validation error; a supplied name
absent from the prompt's input variables fails with the validation error
naming the offending value and the full legal set; and any successfully
constructed chain carries a `document_variable_name` that is among its
`llm_chain` prompt's input variables (so this family of configuration errors
can never surface at invocation time, `combine_docs` being total). -/
theorem document_variable_name_validation (v : RawConfig) (lc : LLMChain)
    (hlc : v.llm_chain = some lc) :
    (v.document_variable_name = none → ∀ x, lc.prompt.input_variables = [x] →
      get_default_document_variable_name v =
        .ok { v with document_variable_name := some x }) ∧
    (v.document_variable_name = none → lc.prompt.input_variables.length ≠ 1 →
      get_default_document_variable_name v = .error ambiguousVariableMsg) ∧
    (∀ n, v.document_variable_name = some n → n ∉ lc.prompt.input_variables →
      get_default_document_variable_name v =
        .error (variableNotFoundMsg n lc.prompt.input_variables)) ∧
    (∀ rb chain, MapReduceDocumentsChain.construct rb v = .ok chain →
      chain.document_variable_name ∈ chain.llm_chain.prompt.input_variables) := by
  refine ⟨?_, ?_, ?_, ?_⟩
  · intro hdvn x hx
    simp [get_default_document_variable_name, hlc, hdvn, hx]
  · intro hdvn hlen
    cases hv : lc.prompt.input_variables with
    | nil => simp [get_default_document_variable_name, hlc, hdvn, hv]
    | cons x t =>
      cases t with
      | nil => exact absurd (by simp [hv]) hlen
      | cons y t2 => simp [get_default_document_variable_name, hlc, hdvn, hv]
  · intro n hdvn hm
    simp [get_default_document_variable_name, hlc, hdvn, hm]
  · intro rb chain h
    unfold MapReduceDocumentsChain.construct at h
    split at h
    · exact Except.noConfusion h
    · rename_i v1 hv1
      split at h
      · exact Except.noConfusion h
      · rename_i v3 hv3
        obtain ⟨h1, h2⟩ := assemble_fields_ok v3 chain h
        exact get_default_ok_mem _ v3 hv3 chain.llm_chain
          chain.document_variable_name h1 h2

/-! Concrete sample data for the witness theorems. -/

/-- Sample behavior of a collaborator combine chain. -/
def sampleBehavior : ChainBehavior :=
  { combineFn := fun _ _ _ => ("final", [("source", Value.str "reduce")]),
    acombineFn := fun _ _ _ => ("final", [("source", Value.str "reduce")]) }

/-- Sample non-composite combine chain. -/
def sampleStuffChain : BaseCombineDocumentsChain :=
  .otherChain "StuffDocumentsChain" sampleBehavior

/-- Sample `ReduceDocumentsChain` with no collapse sub-chain. -/
def sampleReduceChain : BaseCombineDocumentsChain :=
  .reduceDocumentsChain sampleStuffChain none sampleBehavior

/-- Sample model-invocation chain with a single prompt variable. -/
def sampleLLM : LLMChain :=
  { prompt := { input_variables := ["context"] },
    output_key := "text",
    run := fun r => [("text", "mapped " ++ (dictGet r "context").getD "")],
    arun := fun r => [("text", "mapped " ++ (dictGet r "context").getD "")] }

/-- Sample legacy chain with the intermediate-steps flag set. -/
def sampleChain : MapReduceDocumentsChain :=
  { llm_chain := sampleLLM, reduce_documents_chain := sampleReduceChain,
    document_variable_name := "context", return_intermediate_steps := true }

/-- Sample legacy chain with the intermediate-steps flag unset. -/
def sampleChainOff : MapReduceDocumentsChain :=
  { sampleChain with return_intermediate_steps := false }

/-- Sample legacy chain whose reduce chain is not a `ReduceDocumentsChain`. -/
def sampleChainOther : MapReduceDocumentsChain :=
  { sampleChain with reduce_documents_chain := sampleStuffChain }

/-- Sample document. -/
def sampleDoc : Document :=
  { page_content := "Jamal loves green", metadata := [("source", "memo")] }

/-- Sample one-document list. -/
def sampleDocs : List Document := [sampleDoc]

/-- Sample working record for the LCEL chains. -/
def sampleInput : MapReduceInput :=
  { context := sampleDocs, extra := [("question", "who loves green")] }

/-- Sample per-document content mapping for the LCEL map chain. -/
def sampleMapContent : DocumentInput → String :=
  fun di => "mapped " ++ di.context.page_content

/-- Sample caller fields colliding with the document-variable name. -/
def sampleKwargs : InputRecord := [("context", "caller override")]

/-- Sample raw configuration using the legacy `combine_document_chain`. -/
def sampleRawLegacy : RawConfig :=
  { llm_chain := some sampleLLM, reduce_documents_chain := none,
    combine_document_chain := some sampleStuffChain,
    collapse_document_chain := none,
    document_variable_name := some "context",
    return_intermediate_steps := none, return_map_steps := none }

/-- Sample raw configuration supplying both the legacy and the new field. -/
def sampleRawBoth : RawConfig :=
  { sampleRawLegacy with reduce_documents_chain := some sampleReduceChain }

/-- Sample raw configuration with no `document_variable_name` supplied. -/
def sampleRawDerive : RawConfig :=
  { sampleRawLegacy with
    combine_document_chain := none,
    reduce_documents_chain := some sampleReduceChain,
    document_variable_name := none }

/-- Sample model-invocation chain with two prompt variables. -/
def sampleLLMMulti : LLMChain :=
  { sampleLLM with prompt := { input_variables := ["context", "question"] } }

/-- Sample ambiguous raw configuration: no name, two prompt variables. -/
def sampleRawMulti : RawConfig :=
  { sampleRawDerive with llm_chain := some sampleLLMMulti }

/-- Sample raw configuration naming a variable absent from the prompt. -/
def sampleRawBadName : RawConfig :=
  { sampleRawDerive with document_variable_name := some "missing" }

/-- Sample valid raw configuration. -/
def sampleRawGood : RawConfig :=
  { sampleRawDerive with document_variable_name := some "context" }

/-- The chain `sampleRawGood` constructs. -/
def sampleConstructed : MapReduceDocumentsChain :=
  { llm_chain := sampleLLM, reduce_documents_chain := sampleReduceChain,
    document_variable_name := "context", return_intermediate_steps := false }

/-! Witness theorems. -/

/-- Witness for C1 at a one-document list, index 0. -/
theorem map_step_preserves_metadata_witness :
    (∃ d, sampleInput.context[0]? = some d ∧
      (create_map_documents_chain sampleMapContent sampleInput)[0]? =
        some { page_content := sampleMapContent { context := d, extra := sampleInput.extra },
               metadata := d.metadata }) ∧
    (∃ d, sampleDocs[0]? = some d ∧
      (sampleChain.result_docs sampleDocs [])[0]? =
        some { page_content := sampleChain.result_text (sampleChain.llm_chain.run
                 ((sampleChain.document_variable_name, d.page_content) :: [])),
               metadata := d.metadata }) :=
  ⟨(map_step_preserves_metadata sampleMapContent sampleInput sampleChain sampleDocs []).1.2
      0 (by decide),
   (map_step_preserves_metadata sampleMapContent sampleInput sampleChain sampleDocs []).2.2
      0 (by decide)⟩

/-- Witness for C3 on concrete legacy configurations. -/
theorem legacy_combine_chain_migration_witness :
    MapReduceDocumentsChain.construct sampleBehavior sampleRawBoth = .error bothChainsMsg ∧
    (∃ chain, MapReduceDocumentsChain.construct sampleBehavior sampleRawLegacy = .ok chain ∧
      chain.reduce_documents_chain =
        .reduceDocumentsChain sampleStuffChain none sampleBehavior ∧
      chain.llm_chain = sampleLLM ∧ chain.document_variable_name = "context") :=
  ⟨(legacy_combine_chain_migration sampleBehavior sampleRawBoth sampleStuffChain rfl).1 rfl,
   (legacy_combine_chain_migration sampleBehavior sampleRawLegacy sampleStuffChain rfl).2
      rfl sampleLLM "context" rfl rfl (by simp [sampleLLM])⟩

/-- Witness for C4 on concrete raw configurations. -/
theorem document_variable_name_validation_witness :
    (get_default_document_variable_name sampleRawDerive =
      .ok { sampleRawDerive with document_variable_name := some "context" }) ∧
    (get_default_document_variable_name sampleRawMulti = .error ambiguousVariableMsg) ∧
    (get_default_document_variable_name sampleRawBadName =
      .error (variableNotFoundMsg "missing" ["context"])) ∧
    sampleConstructed.document_variable_name ∈
      sampleConstructed.llm_chain.prompt.input_variables :=
  ⟨(document_variable_name_validation sampleRawDerive sampleLLM rfl).1 rfl "context" rfl,
   (document_variable_name_validation sampleRawMulti sampleLLMMulti rfl).2.1 rfl (by decide),
   (document_variable_name_validation sampleRawBadName sampleLLM rfl).2.2.1 "missing"
      rfl (by simp [sampleLLM]),
   (document_variable_name_validation sampleRawGood sampleLLM rfl).2.2.2 sampleBehavior
      sampleConstructed rfl⟩

/-- Witness for C5 with the flag set and unset. -/
theorem intermediate_steps_output_witness :
    dictGet (sampleChain.combine_docs sampleDocs none []).2 "intermediate_steps" =
      some (Value.strList ((sampleChain.map_results sampleDocs []).map sampleChain.result_text)) ∧
    (sampleChainOff.combine_docs sampleDocs none []).2 =
      (sampleChainOff.reduce_documents_chain.combine_docs
        (sampleChainOff.result_docs sampleDocs []) none []).2 :=
  ⟨((intermediate_steps_output sampleChain sampleDocs none []).1 rfl).1,
   ((intermediate_steps_output sampleChainOff sampleDocs none []).2 rfl).1⟩

/-- Witness for C6 on a chain whose collaborators' forms agree. -/
theorem combine_docs_sync_async_agree_witness :
    sampleChain.acombine_docs sampleDocs none [] =
      sampleChain.combine_docs sampleDocs none [] :=
  (combine_docs_sync_async_agree sampleChain sampleDocs none []
    (fun _ => rfl) (fun _ _ _ => rfl)).2.2.2

/-- Witness for C7 on a chain whose reduce chain is a stuff chain. -/
theorem accessor_type_mismatch_witness :
    sampleChainOther.collapse_document_chain =
      .error (notReduceChainMsg (.otherChain "StuffDocumentsChain" sampleBehavior)) ∧
    sampleChainOther.combine_document_chain =
      .error (notReduceChainMsg (.otherChain "StuffDocumentsChain" sampleBehavior)) :=
  (accessor_type_mismatch sampleChainOther).1 "StuffDocumentsChain" sampleBehavior rfl

/-- Witness for C9 on a reduce chain with no collapse sub-chain. -/
theorem collapse_accessor_fallback_witness :
    sampleChain.collapse_document_chain = .ok sampleStuffChain :=
  collapse_accessor_fallback sampleChain sampleStuffChain sampleBehavior rfl

/-- Witness for C10 with a caller field colliding with the variable name. -/
theorem kwargs_override_document_body_witness :
    (∃ r, (sampleChain.map_inputs sampleDocs sampleKwargs)[0]? = some r ∧
      dictGet r sampleChain.document_variable_name = some "caller override") ∧
    (∃ r, (sampleChain.amap_inputs sampleDocs sampleKwargs)[0]? = some r ∧
      dictGet r sampleChain.document_variable_name = some "caller override") :=
  kwargs_override_document_body sampleChain sampleDocs sampleKwargs 0 sampleDoc
    "caller override" rfl rfl
